import Mathlib

/-!
Verification of the cellular-automaton driver shell and configuration
loader of the game-of-life repository (src/src/main.cpp, src/src/config.cpp),
against its natural-language specification.

The engine itself (the `cpu::AutomataBase` / `gpu::AutomataBase` classes) is
not part of the provided sources; where a claim depends on engine internals
the engine is modelled from the spec, as marked in the doc comments.
-/

namespace GoL

/-- Configuration state, from src/src/config.cpp lines 9-19 (defaults) plus
the fields `render`, `benchmarkMode` and `startPaused` that main.cpp reads
from the `config` namespace and that are declared in the config header not
provided under src/.  `rows` and `cols` are `unsigned int` in the source, so
they are modelled as `Nat`; the `float` probabilities are modelled as `Rat`. -/
structure Config where
  maxIterations : Nat
  cpuOnly : Bool
  width : Int
  height : Int
  renderDelayMs : Nat
  rows : Nat
  cols : Nat
  fillProb : Rat
  virtualFillProb : Rat
  render : Bool
  benchmarkMode : Bool
  startPaused : Bool
deriving DecidableEq

/-- Default configuration values, from src/src/config.cpp lines 10-19.
The defaults of `render`, `benchmarkMode` and `startPaused` live in the
missing config header; they are modelled as the non-rendering,
non-benchmark, non-paused run. -/
def defaultConfig : Config :=
  { maxIterations := 0
    cpuOnly := false
    width := 600
    height := 600
    renderDelayMs := 200
    rows := 100
    cols := 100
    fillProb := 2 / 25
    virtualFillProb := 0
    render := false
    benchmarkMode := false
    startPaused := false }

/-- The parsed command line: one optional value per option of the
`options_description` in src/src/config.cpp lines 25-35, plus the two
flag options `help` and `cpu`. -/
structure CmdArgs where
  help : Bool
  width : Option Int
  height : Option Int
  rows : Option Nat
  cols : Option Nat
  renderDelay : Option Nat
  fillProbability : Option Rat
  maxIters : Option Nat
  cpu : Bool
deriving DecidableEq

/-- Outcome of `config::load_cmd`: either the process exits (help text was
requested, src/src/config.cpp line 44) or the updated configuration. -/
inductive LoadResult where
  | exitHelp
  | ok (c : Config)
deriving DecidableEq

/-- The field updates of `config::load_cmd`, src/src/config.cpp lines 46-61:
each supplied option overwrites the corresponding global, `cpu` sets
`cpuOnly`.  No range check of any kind is performed. -/
def applyArgs (c : Config) (a : CmdArgs) : Config :=
  { c with
    width := a.width.getD c.width
    height := a.height.getD c.height
    rows := a.rows.getD c.rows
    cols := a.cols.getD c.cols
    renderDelayMs := a.renderDelay.getD c.renderDelayMs
    fillProb := a.fillProbability.getD c.fillProb
    maxIterations := a.maxIters.getD c.maxIterations
    cpuOnly := c.cpuOnly || a.cpu }

/-- `config::load_cmd`, src/src/config.cpp lines 22-62: `--help` exits,
otherwise every parsed value is stored unchecked. -/
def load_cmd (c : Config) (a : CmdArgs) : LoadResult :=
  if a.help then LoadResult.exitHelp else LoadResult.ok (applyArgs c a)

/-- The validity predicate of the specification for a configuration:
rows and cols positive (they are unsigned, so "≤ 0" means "= 0") and the
fill probability inside [0,1]. -/
def invalid_config (c : Config) : Prop :=
  c.rows = 0 ∨ c.cols = 0 ∨ c.fillProb < 0 ∨ 1 < c.fillProb

instance (c : Config) : Decidable (invalid_config c) := by
  unfold invalid_config; infer_instance

/-- The three automaton backends main.cpp can construct (lines 73-87):
`cpu::AutomataBase`, `gpu::AutomataBase` with a render-interop buffer, and
`gpu::AutomataBase` without one. -/
inductive Backend where
  | cpu
  | gpuRender
  | gpuHeadless
deriving DecidableEq

/-- Modelled from the spec: the Random Seeder is a deterministic-from-seed
pseudo-random stream (spec 4.2); a 64-bit linear congruential generator
stands in for the stream, as the engine sources are not provided. -/
def lcg (x : Nat) : Nat :=
  (6364136223846793005 * x + 1442695040888963407) % 2 ^ 64

/-- Modelled from the spec: the pseudo-random draw for stream position `t`
of the stream seeded with `seed`, reduced to 32 bits. -/
def cellRand (seed t : Nat) : Nat :=
  lcg (lcg (seed + t)) % 2 ^ 32

/-- Modelled from the spec: a Bernoulli probability `p` as a 32-bit
threshold, so a draw is a success iff it is below the threshold. -/
def probThreshold (p : Rat) : Nat :=
  (p.num * 2 ^ 32 / (p.den : Int)).toNat

/-- The Rule Engine (spec 4.3): the classic rule, a pure function of the
current state and the live-neighbor count. -/
def next_state (alive : Bool) (liveNeighbors : Nat) : Bool :=
  if alive then liveNeighbors == 2 || liveNeighbors == 3
  else liveNeighbors == 3

/-- Modelled from the spec: the engine state behind `AutomataInterface`
(grid store, seeder state, alive count), plus the constructor-time data
visible at the construction sites in main.cpp lines 73-87: the backend
variant and the optional render-interop buffer handle (`target`). -/
structure Engine where
  backend : Backend
  target : Option Nat
  rows : Nat
  cols : Nat
  fillThresh : Nat
  virtualThresh : Nat
  seed : Nat
  rngCounter : Nat
  grid : List Bool
  aliveCount : Nat
deriving DecidableEq

/-- Cell at row `r`, column `c` of the row-major grid. -/
def cellAt (e : Engine) (r c : Nat) : Bool :=
  e.grid.getD (r * e.cols + c) false

/-- Moore-neighborhood live count with toroidal wraparound (spec 3). -/
def neighborCount (e : Engine) (r c : Nat) : Nat :=
  if e.rows = 0 ∨ e.cols = 0 then 0 else
  let rm := (r + e.rows - 1) % e.rows
  let rp := (r + 1) % e.rows
  let cm := (c + e.cols - 1) % e.cols
  let cp := (c + 1) % e.cols
  List.countP (fun rc => cellAt e rc.1 rc.2)
    [(rm, cm), (rm, c), (rm, cp), (r, cm), (r, cp), (rp, cm), (rp, c), (rp, cp)]

/-- Modelled from the spec: next state of the flat cell index `i` in one
generation step — the rule outcome, then virtual-fill noise applied on top
(spec 4.2, 4.4). -/
def nextCell (e : Engine) (i : Nat) : Bool :=
  let r := i / e.cols
  let c := i % e.cols
  next_state (cellAt e r c) (neighborCount e r c)
    || decide (cellRand e.seed (e.rngCounter + i) < e.virtualThresh)

/-- Modelled from the spec: `compute_grid(count_alive)` — one full
generation step writing the next buffer and committing it, consuming one
pseudo-random draw per cell for the virtual fill, and publishing the alive
count when requested (spec 4.4, 4.5). -/
def compute_grid (e : Engine) (countAlive : Bool) : Engine :=
  let newGrid := (List.range (e.rows * e.cols)).map (nextCell e)
  { e with
    grid := newGrid
    rngCounter := e.rngCounter + e.rows * e.cols
    aliveCount := if countAlive then newGrid.count true else e.aliveCount }

/-- Modelled from the spec: `update_grid_buffers()` copies the current
generation into the externally-owned renderable buffer (spec 4.4, 4.5); it
does not change the engine state. -/
def update_grid_buffers (e : Engine) : Engine := e

/-- Modelled from the spec: stochastic initialization — every cell alive
with probability `fillProb` from the seeded stream (spec 4.2). -/
def initGrid (seed n fillThresh : Nat) : List Bool :=
  (List.range n).map (fun i => decide (cellRand seed i < fillThresh))

/-- Modelled from the spec: the `AutomataBase` constructor — the engine is
built from the construction inputs (seed, rows, cols, probabilities,
backend variant, optional interop buffer handle) and seeds the first
generation (spec 6). -/
def AutomataBase (backend : Backend) (target : Option Nat) (randSeed : Nat)
    (cfg : Config) : Engine :=
  { backend := backend
    target := target
    rows := cfg.rows
    cols := cfg.cols
    fillThresh := probThreshold cfg.fillProb
    virtualThresh := probThreshold cfg.virtualFillProb
    seed := randSeed
    rngCounter := cfg.rows * cfg.cols
    grid := initGrid randSeed (cfg.rows * cfg.cols) (probThreshold cfg.fillProb)
    aliveCount := 0 }

/-- Backend selection of main.cpp lines 73-87: `config::cpuOnly` wins,
otherwise `config::render` selects the render-interop GPU variant,
otherwise the headless GPU variant. -/
def select_backend (cfg : Config) : Backend :=
  if cfg.cpuOnly then Backend.cpu
  else if cfg.render then Backend.gpuRender
  else Backend.gpuHeadless

/-- The interop-buffer handle passed at construction (main.cpp lines 73-87):
only the render-mode GPU constructor receives the display's grid VBO
handle; the CPU constructor receives a presentation callback instead and
the headless GPU constructor receives nothing. -/
def select_target (cfg : Config) (vbo : Nat) : Option Nat :=
  if cfg.cpuOnly then none
  else if cfg.render then some vbo
  else none

/-- The single engine construction of main.cpp lines 73-87. -/
def init_automata (cfg : Config) (randSeed vbo : Nat) : Engine :=
  AutomataBase (select_backend cfg) (select_target cfg vbo) randSeed cfg

/-- Engine-level run of `n` generations, headlessly and without the
alive-count instrumentation. -/
def computeN (e : Engine) : Nat → Engine
  | 0 => e
  | n + 1 => computeN (compute_grid e false) n

/-- The grid after `n` generations of a run constructed from the given
seed, shape and probabilities (spec 8, end-to-end scenario). -/
def run_generations (randSeed rows cols : Nat) (fillProb virtualFillProb : Rat)
    (n : Nat) : List Bool :=
  (computeN
    (AutomataBase Backend.gpuHeadless none randSeed
      { defaultConfig with
        rows := rows, cols := cols
        fillProb := fillProb, virtualFillProb := virtualFillProb }) n).grid

/-- Observable calls of one driver-loop iteration, in program order:
`update_grid_buffers` and `Display::draw` (main.cpp lines 132-138), a
`compute_grid` call (line 142), or the paused message (line 145).  The
backend the call dispatches to is recorded on the event. -/
inductive Event where
  | update (b : Backend)
  | draw
  | compute (b : Backend) (countAlive : Bool)
  | pausedMessage
deriving DecidableEq

/-- Whether an event is a `compute_grid` call. -/
def Event.isCompute : Event → Bool
  | Event.compute _ _ => true
  | _ => false

/-- Whether an event is an `update_grid_buffers` call. -/
def Event.isUpdate : Event → Bool
  | Event.update _ => true
  | _ => false

/-- The backend an event dispatches to, when it is a dispatch. -/
def Event.backendOf : Event → Option Backend
  | Event.update b => some b
  | Event.compute b _ => some b
  | _ => none

/-- Number of `compute_grid` calls in a trace. -/
def computeCount (evs : List Event) : Nat :=
  evs.countP Event.isCompute

/-- The mutable driver-shell state of main.cpp: the globals `gLooping`
(line 39) and `stats::iterations` (owned by the stats header, counts
from 0), the `controls::paused` / `controls::singleStep` flags read at
lines 141-147, whether the display main loop is still running (render
mode), and the engine `*gAutomata`. -/
structure LoopState where
  gLooping : Bool
  displayRunning : Bool
  iterations : Nat
  paused : Bool
  singleStep : Bool
  automata : Engine
deriving DecidableEq

/-- `sigint_handler`, main.cpp lines 195-198: it clears `gLooping` and
touches nothing else of the simulation state (the source also prints a
newline, which has no simulation effect). -/
def sigint_handler (s : LoopState) : LoopState :=
  { s with gLooping := false }

/-- The render phase of `loop()` (main.cpp lines 131-138): when rendering
is enabled, `update_grid_buffers` runs and then the display draws the
current grid.  State effect on the engine (the buffer copy does not change
engine state). -/
def renderState (cfg : Config) (s : LoopState) : LoopState :=
  if cfg.render then { s with automata := update_grid_buffers s.automata } else s

/-- Events emitted by the render phase of `loop()`. -/
def renderEvents (cfg : Config) (s : LoopState) : List Event :=
  if cfg.render then [Event.update s.automata.backend, Event.draw] else []

/-- The compute phase of `loop()` (main.cpp lines 140-146): when not paused
or a single step is requested, `compute_grid(logEnabled)` runs and
`stats::iterations` is incremented; otherwise (outside benchmark mode) the
paused message is printed. -/
def computeState (cfg : Config) (logEnabled : Bool) (s : LoopState) : LoopState :=
  if !s.paused || s.singleStep then
    { s with
      automata := compute_grid s.automata logEnabled
      iterations := s.iterations + 1 }
  else s

/-- Events emitted by the compute phase of `loop()`. -/
def computeEvents (cfg : Config) (logEnabled : Bool) (s : LoopState) : List Event :=
  if !s.paused || s.singleStep then [Event.compute s.automata.backend logEnabled]
  else if !cfg.benchmarkMode then [Event.pausedMessage] else []

/-- Line 147 of main.cpp: `controls::singleStep = false`, unconditionally. -/
def clearSingleStep (s : LoopState) : LoopState :=
  { s with singleStep := false }

/-- Lines 156-163 of main.cpp: when `gLooping` was cleared or
`maxIterations` is positive and reached, stop — by `Display::stop()` in
render mode, by clearing `gLooping` in headless mode. -/
def maxIterCheck (cfg : Config) (s : LoopState) : LoopState :=
  if !s.gLooping
      || (decide (0 < cfg.maxIterations) && decide (cfg.maxIterations ≤ s.iterations)) then
    if cfg.render then { s with displayRunning := false }
    else { s with gLooping := false }
  else s

/-- One full execution of `loop()` (main.cpp lines 115-164): render phase,
compute phase, unconditional clearing of the single-step flag, then the
max-iterations check.  Returns the new state and the iteration's event
trace in program order. -/
def loopBody (cfg : Config) (logEnabled : Bool) (s : LoopState) : LoopState × List Event :=
  (maxIterCheck cfg (clearSingleStep (computeState cfg logEnabled (renderState cfg s))),
   renderEvents cfg s ++ computeEvents cfg logEnabled (renderState cfg s))

/-- Loop-continuation condition: the `while (gLooping)` of main.cpp line 95
in headless mode, the display main loop in render mode. -/
def continues (cfg : Config) (s : LoopState) : Bool :=
  if cfg.render then s.displayRunning else s.gLooping

/-- The driver loop, fuel-bounded (the source loop need not terminate).
`lo k` is the time-dependent outcome of `should_log()` at iteration `k`,
and `sig k` says whether SIGINT has arrived by the start of iteration `k`;
the handler runs at the iteration boundary, the only place its effect on
the loop can be observed.  Mirrors main.cpp lines 92-97 and the repeated
display-driven invocation of `loop()`. -/
def driver_run (cfg : Config) (lo sig : Nat → Bool) :
    Nat → Nat → LoopState → LoopState × List Event
  | 0, _, s => (s, [])
  | fuel + 1, k, s =>
    let s₀ := if sig k then sigint_handler s else s
    if continues cfg s₀ then
      let r := loopBody cfg (!cfg.benchmarkMode && lo k) s₀
      let rest := driver_run cfg lo sig fuel (k + 1) r.1
      (rest.1, r.2 ++ rest.2)
    else (s₀, [])

/-- The driver state right after main.cpp lines 52-90: `gLooping` is true
(line 39), the iteration counter starts at zero, `controls::paused` is
initialized from `config::startPaused` (line 66), the single-step flag is
initially clear, and the engine has just been constructed (lines 73-87)
with the shell-supplied random seed. -/
def initState (cfg : Config) (randSeed vbo : Nat) : LoopState :=
  { gLooping := true
    displayRunning := true
    iterations := 0
    paused := cfg.startPaused
    singleStep := false
    automata := init_automata cfg randSeed vbo }

/-- The signal schedule of an uninterrupted run. -/
def noSig : Nat → Bool := fun _ => false

/-- A small headless configuration used to exercise the model on concrete
runs: a 1×1 grid, one iteration. -/
def cfgW : Config :=
  { defaultConfig with rows := 1, cols := 1, maxIterations := 1 }

/-- A concrete driver state that is paused with no step requested. -/
def sPaused : LoopState :=
  { initState cfgW 0 0 with paused := true }

/-- A concrete driver state that is paused with a single step requested. -/
def sStep : LoopState :=
  { initState cfgW 0 0 with paused := true, singleStep := true }

/-- The command line of a run with an out-of-range fill probability: a 1×1
grid, fill probability 2, one iteration. -/
def argsBad : CmdArgs :=
  { help := false
    width := none
    height := none
    rows := some 1
    cols := some 1
    renderDelay := none
    fillProbability := some 2
    maxIters := some 1
    cpu := false }

/-- The configuration `config::load_cmd` produces from `argsBad`. -/
def cfgBad : Config := applyArgs defaultConfig argsBad

/-! ### Basic lemmas about the loop phases -/

theorem update_grid_buffers_id (e : Engine) : update_grid_buffers e = e := rfl

theorem renderState_id (cfg : Config) (s : LoopState) : renderState cfg s = s := by
  unfold renderState update_grid_buffers
  split <;> rfl

theorem loopBody_snd (cfg : Config) (l : Bool) (s : LoopState) :
    (loopBody cfg l s).2 = renderEvents cfg s ++ computeEvents cfg l s := by
  unfold loopBody
  rw [renderState_id]

theorem loopBody_fst (cfg : Config) (l : Bool) (s : LoopState) :
    (loopBody cfg l s).1 = maxIterCheck cfg (clearSingleStep (computeState cfg l s)) := by
  unfold loopBody
  rw [renderState_id]

theorem computeState_active (cfg : Config) (l : Bool) (s : LoopState)
    (h : (!s.paused || s.singleStep) = true) :
    computeState cfg l s =
      { s with automata := compute_grid s.automata l, iterations := s.iterations + 1 } := by
  simp [computeState, h]

theorem computeState_inactive (cfg : Config) (l : Bool) (s : LoopState)
    (h : (!s.paused || s.singleStep) = false) :
    computeState cfg l s = s := by
  simp [computeState, h]

theorem computeEvents_active (cfg : Config) (l : Bool) (s : LoopState)
    (h : (!s.paused || s.singleStep) = true) :
    computeEvents cfg l s = [Event.compute s.automata.backend l] := by
  simp [computeEvents, h]

theorem computeEvents_inactive (cfg : Config) (l : Bool) (s : LoopState)
    (h : (!s.paused || s.singleStep) = false) :
    computeEvents cfg l s = if !cfg.benchmarkMode then [Event.pausedMessage] else [] := by
  simp [computeEvents, h]

theorem computeCount_append (a b : List Event) :
    computeCount (a ++ b) = computeCount a + computeCount b :=
  List.countP_append _ _ _

theorem computeCount_renderEvents (cfg : Config) (s : LoopState) :
    computeCount (renderEvents cfg s) = 0 := by
  unfold renderEvents computeCount
  split <;> rfl

theorem computeCount_computeEvents (cfg : Config) (l : Bool) (s : LoopState) :
    computeCount (computeEvents cfg l s) = if !s.paused || s.singleStep then 1 else 0 := by
  unfold computeEvents computeCount
  split
  · rfl
  · split <;> rfl

theorem maxIterCheck_paused (cfg : Config) (s : LoopState) :
    (maxIterCheck cfg s).paused = s.paused := by
  unfold maxIterCheck
  split
  · split <;> rfl
  · rfl

theorem maxIterCheck_iterations (cfg : Config) (s : LoopState) :
    (maxIterCheck cfg s).iterations = s.iterations := by
  unfold maxIterCheck
  split
  · split <;> rfl
  · rfl

theorem maxIterCheck_singleStep (cfg : Config) (s : LoopState) :
    (maxIterCheck cfg s).singleStep = s.singleStep := by
  unfold maxIterCheck
  split
  · split <;> rfl
  · rfl

theorem maxIterCheck_automata (cfg : Config) (s : LoopState) :
    (maxIterCheck cfg s).automata = s.automata := by
  unfold maxIterCheck
  split
  · split <;> rfl
  · rfl

theorem loopBody_paused (cfg : Config) (l : Bool) (s : LoopState) :
    (loopBody cfg l s).1.paused = s.paused := by
  rw [loopBody_fst, maxIterCheck_paused]
  unfold clearSingleStep computeState
  split <;> rfl

theorem loopBody_singleStep (cfg : Config) (l : Bool) (s : LoopState) :
    (loopBody cfg l s).1.singleStep = false := by
  rw [loopBody_fst, maxIterCheck_singleStep]
  rfl

theorem loopBody_iterations (cfg : Config) (l : Bool) (s : LoopState) :
    (loopBody cfg l s).1.iterations =
      if !s.paused || s.singleStep then s.iterations + 1 else s.iterations := by
  rw [loopBody_fst, maxIterCheck_iterations]
  unfold clearSingleStep computeState
  split <;> rfl

theorem loopBody_automata (cfg : Config) (l : Bool) (s : LoopState) :
    (loopBody cfg l s).1.automata =
      if !s.paused || s.singleStep then compute_grid s.automata l else s.automata := by
  rw [loopBody_fst, maxIterCheck_automata]
  unfold clearSingleStep computeState
  split <;> rfl

theorem loopBody_iterations_count (cfg : Config) (l : Bool) (s : LoopState) :
    (loopBody cfg l s).1.iterations = s.iterations + computeCount (loopBody cfg l s).2 := by
  rw [loopBody_snd, loopBody_iterations, computeCount_append, computeCount_renderEvents,
    computeCount_computeEvents]
  split <;> rfl

/-! ### Lemmas about the driver run -/

theorem sigint_handler_automata (s : LoopState) :
    (sigint_handler s).automata = s.automata := rfl

theorem sigint_handler_iterations (s : LoopState) :
    (sigint_handler s).iterations = s.iterations := rfl

theorem sigint_handler_idem (s : LoopState) :
    sigint_handler (sigint_handler s) = sigint_handler s := rfl

theorem sigint_handler_of_not_looping (s : LoopState) (h : s.gLooping = false) :
    sigint_handler s = s := by
  cases s
  simp only [sigint_handler] at h ⊢
  simp_all

theorem driver_run_succ (cfg : Config) (lo sig : Nat → Bool) (fuel k : Nat) (s : LoopState) :
    driver_run cfg lo sig (fuel + 1) k s =
      (let s₀ := if sig k then sigint_handler s else s
       if continues cfg s₀ then
         let r := loopBody cfg (!cfg.benchmarkMode && lo k) s₀
         let rest := driver_run cfg lo sig fuel (k + 1) r.1
         (rest.1, r.2 ++ rest.2)
       else (s₀, [])) := rfl

theorem driver_run_halted (cfg : Config) (lo sig : Nat → Bool) (hr : cfg.render = false) :
    ∀ fuel k s, s.gLooping = false → driver_run cfg lo sig fuel k s = (s, []) := by
  intro fuel k s h
  cases fuel with
  | zero => rfl
  | succ n =>
    rw [driver_run_succ]
    by_cases hsig : sig k = true
    · simp only [hsig, if_true, sigint_handler_of_not_looping s h, continues, hr, if_false, h]
      simp [h]
    · simp only [Bool.not_eq_true] at hsig
      simp only [hsig, continues, hr, h]
      simp [h]

theorem driver_run_iterations (cfg : Config) (lo sig : Nat → Bool) :
    ∀ fuel k s,
      (driver_run cfg lo sig fuel k s).1.iterations =
        s.iterations + computeCount (driver_run cfg lo sig fuel k s).2 := by
  intro fuel
  induction fuel with
  | zero =>
    intro k s
    simp [driver_run, computeCount]
  | succ n ih =>
    intro k s
    rw [driver_run_succ]
    simp only []
    by_cases hsig : sig k = true <;>
      simp only [hsig, if_true, if_false, Bool.false_eq_true] <;>
      [skip; skip] <;>
      split <;>
      simp_all [computeCount_append, ih, loopBody_iterations_count,
        sigint_handler_iterations, computeCount] <;>
      omega

theorem compute_grid_backend (e : Engine) (l : Bool) :
    (compute_grid e l).backend = e.backend := rfl

theorem compute_grid_target (e : Engine) (l : Bool) :
    (compute_grid e l).target = e.target := rfl

theorem loopBody_backend (cfg : Config) (l : Bool) (s : LoopState) :
    (loopBody cfg l s).1.automata.backend = s.automata.backend := by
  rw [loopBody_automata]
  split <;> rfl

theorem loopBody_target (cfg : Config) (l : Bool) (s : LoopState) :
    (loopBody cfg l s).1.automata.target = s.automata.target := by
  rw [loopBody_automata]
  split <;> rfl

theorem driver_run_backend (cfg : Config) (lo sig : Nat → Bool) :
    ∀ fuel k s,
      (driver_run cfg lo sig fuel k s).1.automata.backend = s.automata.backend := by
  intro fuel
  induction fuel with
  | zero => intro k s; rfl
  | succ n ih =>
    intro k s
    rw [driver_run_succ]
    simp only []
    by_cases hsig : sig k = true <;>
      simp only [hsig, if_true, if_false, Bool.false_eq_true] <;>
      split <;>
      simp_all [ih, loopBody_backend, sigint_handler_automata]

theorem driver_run_target (cfg : Config) (lo sig : Nat → Bool) :
    ∀ fuel k s,
      (driver_run cfg lo sig fuel k s).1.automata.target = s.automata.target := by
  intro fuel
  induction fuel with
  | zero => intro k s; rfl
  | succ n ih =>
    intro k s
    rw [driver_run_succ]
    simp only []
    by_cases hsig : sig k = true <;>
      simp only [hsig, if_true, if_false, Bool.false_eq_true] <;>
      split <;>
      simp_all [ih, loopBody_target, sigint_handler_automata]

theorem loopBody_events_backend (cfg : Config) (l : Bool) (s : LoopState)
    (e : Event) (b : Backend) (he : e ∈ (loopBody cfg l s).2)
    (hb : e.backendOf = some b) : b = s.automata.backend := by
  rw [loopBody_snd] at he
  rcases List.mem_append.mp he with h | h
  · unfold renderEvents at h
    split at h
    · simp only [List.mem_cons, List.not_mem_nil, or_false] at h
      rcases h with h | h
      · subst h
        simp only [Event.backendOf, Option.some.injEq] at hb
        exact hb.symm
      · subst h
        cases hb
    · simp at h
  · unfold computeEvents at h
    split at h
    · simp only [List.mem_cons, List.not_mem_nil, or_false] at h
      subst h
      simp only [Event.backendOf, Option.some.injEq] at hb
      exact hb.symm
    · split at h
      · simp only [List.mem_cons, List.not_mem_nil, or_false] at h
        subst h
        cases hb
      · simp at h

theorem driver_run_events_backend (cfg : Config) (lo sig : Nat → Bool) :
    ∀ fuel k s (e : Event) (b : Backend),
      e ∈ (driver_run cfg lo sig fuel k s).2 →
      e.backendOf = some b → b = s.automata.backend := by
  intro fuel
  induction fuel with
  | zero =>
    intro k s e b he
    simp [driver_run] at he
  | succ n ih =>
    intro k s e b he hb
    rw [driver_run_succ] at he
    simp only [] at he
    by_cases hsig : sig k = true <;>
      simp only [hsig, if_true, if_false, Bool.false_eq_true] at he <;>
      split at he <;>
      simp only [List.mem_append, List.not_mem_nil] at he
    all_goals
      rcases he with he | he
    all_goals
      first
      | (have hh := loopBody_events_backend cfg _ _ e b he hb
         simpa [sigint_handler_automata] using hh)
      | (have hh := ih (k + 1) _ e b he hb
         simpa [loopBody_backend, sigint_handler_automata] using hh)

/-! ### Headless-run lemmas -/

theorem noSig_eq (k : Nat) : noSig k = false := rfl

theorem loopBody_running_events (cfg : Config) (l : Bool) (s : LoopState)
    (hr : cfg.render = false) (hp : s.paused = false) :
    (loopBody cfg l s).2 = [Event.compute s.automata.backend l] := by
  have hact : (!s.paused || s.singleStep) = true := by simp [hp]
  rw [loopBody_snd, computeEvents_active _ _ _ hact]
  unfold renderEvents
  simp [hr]

theorem loopBody_running_iterations (cfg : Config) (l : Bool) (s : LoopState)
    (hp : s.paused = false) :
    (loopBody cfg l s).1.iterations = s.iterations + 1 := by
  rw [loopBody_iterations]
  simp [hp]

theorem loopBody_stop (cfg : Config) (l : Bool) (s : LoopState)
    (hr : cfg.render = false) (hp : s.paused = false) (hg : s.gLooping = true)
    (hm : 0 < cfg.maxIterations) (hle : cfg.maxIterations ≤ s.iterations + 1) :
    (loopBody cfg l s).1.gLooping = false := by
  rw [loopBody_fst]
  unfold maxIterCheck clearSingleStep computeState
  simp [hp, hg, hr, hm, hle]

theorem loopBody_go (cfg : Config) (l : Bool) (s : LoopState)
    (hr : cfg.render = false) (hp : s.paused = false) (hg : s.gLooping = true)
    (h : cfg.maxIterations = 0 ∨ s.iterations + 1 < cfg.maxIterations) :
    (loopBody cfg l s).1.gLooping = true := by
  rw [loopBody_fst]
  unfold maxIterCheck clearSingleStep computeState
  rcases h with h | h
  · simp [hp, hg, h]
  · simp [hp, hg, hr, Nat.not_le.mpr h]

theorem computeCount_nil : computeCount [] = 0 := rfl

theorem computeCount_single_compute (b : Backend) (l : Bool) :
    computeCount [Event.compute b l] = 1 := rfl

theorem run_to_max (cfg : Config) (lo : Nat → Bool) (hr : cfg.render = false)
    (hm : 0 < cfg.maxIterations) :
    ∀ fuel s k, s.paused = false → s.gLooping = true →
      s.iterations < cfg.maxIterations → cfg.maxIterations ≤ s.iterations + fuel →
      computeCount (driver_run cfg lo noSig fuel k s).2 =
          cfg.maxIterations - s.iterations ∧
        (driver_run cfg lo noSig fuel k s).1.gLooping = false ∧
        (driver_run cfg lo noSig fuel k s).1.iterations = cfg.maxIterations := by
  intro fuel
  induction fuel with
  | zero =>
    intro s k hp hg hlt hle
    omega
  | succ n ih =>
    intro s k hp hg hlt hle
    rw [driver_run_succ]
    have hcont : continues cfg s = true := by simp [continues, hr, hg]
    simp only [noSig_eq, Bool.false_eq_true, if_false, hcont, if_true]
    have hev := loopBody_running_events cfg (!cfg.benchmarkMode && lo k) s hr hp
    have hit := loopBody_running_iterations cfg (!cfg.benchmarkMode && lo k) s hp
    have hpa := loopBody_paused cfg (!cfg.benchmarkMode && lo k) s
    by_cases hstop : cfg.maxIterations ≤ s.iterations + 1
    · have hg' := loopBody_stop cfg (!cfg.benchmarkMode && lo k) s hr hp hg hm hstop
      rw [driver_run_halted cfg lo noSig hr n (k + 1) _ hg']
      dsimp only
      refine ⟨?_, hg', ?_⟩
      · rw [List.append_nil, hev, computeCount_single_compute]
        omega
      · rw [hit]
        omega
    · have hg' := loopBody_go cfg (!cfg.benchmarkMode && lo k) s hr hp hg
        (Or.inr (by omega))
      obtain ⟨ih1, ih2, ih3⟩ := ih (loopBody cfg (!cfg.benchmarkMode && lo k) s).1 (k + 1)
        (by rw [hpa]; exact hp) hg' (by omega) (by omega)
      refine ⟨?_, ih2, ih3⟩
      rw [computeCount_append, hev, computeCount_single_compute, ih1, hit]
      omega

theorem run_forever (cfg : Config) (lo : Nat → Bool) (hr : cfg.render = false)
    (hm : cfg.maxIterations = 0) :
    ∀ fuel s k, s.paused = false → s.gLooping = true →
      computeCount (driver_run cfg lo noSig fuel k s).2 = fuel ∧
        (driver_run cfg lo noSig fuel k s).1.gLooping = true ∧
        (driver_run cfg lo noSig fuel k s).1.iterations = s.iterations + fuel := by
  intro fuel
  induction fuel with
  | zero =>
    intro s k hp hg
    exact ⟨rfl, hg, rfl⟩
  | succ n ih =>
    intro s k hp hg
    rw [driver_run_succ]
    have hcont : continues cfg s = true := by simp [continues, hr, hg]
    simp only [noSig_eq, Bool.false_eq_true, if_false, hcont, if_true]
    have hev := loopBody_running_events cfg (!cfg.benchmarkMode && lo k) s hr hp
    have hit := loopBody_running_iterations cfg (!cfg.benchmarkMode && lo k) s hp
    have hpa := loopBody_paused cfg (!cfg.benchmarkMode && lo k) s
    have hg' := loopBody_go cfg (!cfg.benchmarkMode && lo k) s hr hp hg (Or.inl hm)
    obtain ⟨ih1, ih2, ih3⟩ := ih (loopBody cfg (!cfg.benchmarkMode && lo k) s).1 (k + 1)
      (by rw [hpa]; exact hp) hg'
    refine ⟨?_, ih2, ?_⟩
    · rw [computeCount_append, hev, computeCount_single_compute, ih1]
      omega
    · rw [ih3, hit]
      omega

theorem renderEvents_no_compute (cfg : Config) (s : LoopState) :
    ∀ e ∈ renderEvents cfg s, e.isCompute = false := by
  intro e he
  unfold renderEvents at he
  split at he
  · simp only [List.mem_cons, List.not_mem_nil, or_false] at he
    rcases he with he | he <;> subst he <;> rfl
  · simp at he

theorem computeEvents_no_update (cfg : Config) (l : Bool) (s : LoopState) :
    ∀ e ∈ computeEvents cfg l s, e.isUpdate = false := by
  intro e he
  unfold computeEvents at he
  split at he
  · simp only [List.mem_cons, List.not_mem_nil, or_false] at he
    subst he
    rfl
  · split at he
    · simp only [List.mem_cons, List.not_mem_nil, or_false] at he
      subst he
      rfl
    · simp at he

/-! ### Claim theorems -/

/-- C1: the random seed is a construction input supplied by the shell to
the engine (main.cpp lines 55, 73-87), and two runs configured with the
same seed, the same rows and cols, the same fill probability and virtual
fill probability 0 produce the same grid after the same number of
generations. -/
theorem c1_seed_determinism (cfg : Config) (seed vbo : Nat)
    (s₁ s₂ r₁ r₂ c₁ c₂ n₁ n₂ : Nat) (p₁ p₂ : Rat)
    (hs : s₁ = s₂) (hr : r₁ = r₂) (hc : c₁ = c₂) (hp : p₁ = p₂) (hn : n₁ = n₂) :
    (init_automata cfg seed vbo).seed = seed ∧
      run_generations s₁ r₁ c₁ p₁ 0 n₁ = run_generations s₂ r₂ c₂ p₂ 0 n₂ := by
  subst hs
  subst hr
  subst hc
  subst hp
  subst hn
  exact ⟨rfl, rfl⟩

/-- C1 witness: the end-to-end scenario of the spec — rows=10, cols=10,
seed=42, fill probability 0.08, virtual fill probability 0, 5
generations. -/
theorem c1_seed_determinism_witness :
    (init_automata defaultConfig 42 0).seed = 42 ∧
      run_generations 42 10 10 (2 / 25) 0 5 = run_generations 42 10 10 (2 / 25) 0 5 :=
  c1_seed_determinism defaultConfig 42 0 42 42 10 10 10 10 5 5 (2 / 25) (2 / 25)
    rfl rfl rfl rfl rfl

/-- C2: `sigint_handler` only clears the cancellation flag `gLooping`;
the flag is read only at generation-step boundaries, so a loop iteration
performs the same events, the same engine transition and the same counter
update whether or not the flag was cleared before it (an in-flight
`compute_grid` always completes), and once the flag is cleared the
headless generation loop stops at the boundary, executing nothing
further before teardown. -/
theorem c2_sigint_stops_between_steps (cfg : Config) (l : Bool)
    (lo sig : Nat → Bool) (fuel k : Nat) (s : LoopState)
    (hr : cfg.render = false) :
    sigint_handler s = { s with gLooping := false } ∧
      (loopBody cfg l (sigint_handler s)).2 = (loopBody cfg l s).2 ∧
      (loopBody cfg l (sigint_handler s)).1.automata = (loopBody cfg l s).1.automata ∧
      (loopBody cfg l (sigint_handler s)).1.iterations = (loopBody cfg l s).1.iterations ∧
      driver_run cfg lo sig fuel k (sigint_handler s) = (sigint_handler s, []) := by
  refine ⟨rfl, ?_, ?_, ?_, ?_⟩
  · rw [loopBody_snd, loopBody_snd]
    rfl
  · rw [loopBody_automata, loopBody_automata]
    rfl
  · rw [loopBody_iterations, loopBody_iterations]
    rfl
  · exact driver_run_halted cfg lo sig hr fuel k _ rfl

/-- C2 witness: the conclusion at a concrete headless state. -/
theorem c2_sigint_stops_between_steps_witness :
    driver_run defaultConfig noSig noSig 3 0 (sigint_handler (initState defaultConfig 0 0)) =
      (sigint_handler (initState defaultConfig 0 0), []) :=
  (c2_sigint_stops_between_steps defaultConfig false noSig noSig 3 0
    (initState defaultConfig 0 0) rfl).2.2.2.2

/-- C5: within one driver-loop iteration the event trace is a prefix of
buffer-update/draw events followed by compute events, so every
`update_grid_buffers` call completes before the iteration's `compute_grid`
begins; updates happen only when rendering is enabled, in which case the
iteration opens with exactly the update of the current backend followed by
the draw. -/
theorem c5_update_before_compute (cfg : Config) (l : Bool) (s : LoopState) :
    ∃ pre post, (loopBody cfg l s).2 = pre ++ post ∧
      (∀ e ∈ pre, e.isCompute = false) ∧
      (∀ e ∈ post, e.isUpdate = false) ∧
      (cfg.render = false → ∀ e ∈ (loopBody cfg l s).2, e.isUpdate = false) ∧
      (cfg.render = true → pre = [Event.update s.automata.backend, Event.draw]) := by
  refine ⟨renderEvents cfg s, computeEvents cfg l s, loopBody_snd cfg l s,
    renderEvents_no_compute cfg s, computeEvents_no_update cfg l s, ?_, ?_⟩
  · intro hr e he
    rw [loopBody_snd] at he
    rcases List.mem_append.mp he with he | he
    · unfold renderEvents at he
      rw [hr] at he
      simp at he
    · exact computeEvents_no_update cfg l s e he
  · intro hrt
    unfold renderEvents
    rw [hrt]
    rfl

/-- C5 witness: the decomposition at a concrete render-mode iteration. -/
theorem c5_update_before_compute_witness :
    ∃ pre post,
      (loopBody { cfgW with render := true } false (initState { cfgW with render := true } 0 0)).2
          = pre ++ post ∧
        (∀ e ∈ pre, e.isCompute = false) ∧
        (∀ e ∈ post, e.isUpdate = false) ∧
        ({ cfgW with render := true }.render = false →
          ∀ e ∈ (loopBody { cfgW with render := true } false
            (initState { cfgW with render := true } 0 0)).2, e.isUpdate = false) ∧
        ({ cfgW with render := true }.render = true →
          pre = [Event.update (initState { cfgW with render := true } 0 0).automata.backend,
            Event.draw]) :=
  c5_update_before_compute { cfgW with render := true } false
    (initState { cfgW with render := true } 0 0)

/-- C6: in a driver-loop iteration entered with the pause flag set and no
single step requested, `compute_grid` is not called, the iteration counter
is unchanged, and the engine state is untouched — pausing lives entirely
in the driver shell. -/
theorem c6_paused_skips_compute (cfg : Config) (l : Bool) (s : LoopState)
    (hp : s.paused = true) (hss : s.singleStep = false) :
    computeCount (loopBody cfg l s).2 = 0 ∧
      (loopBody cfg l s).1.iterations = s.iterations ∧
      (loopBody cfg l s).1.automata = s.automata := by
  have hact : (!s.paused || s.singleStep) = false := by simp [hp, hss]
  refine ⟨?_, ?_, ?_⟩
  · rw [loopBody_snd, computeCount_append, computeCount_renderEvents,
      computeCount_computeEvents]
    simp [hp, hss]
  · rw [loopBody_iterations]
    simp [hp, hss]
  · rw [loopBody_automata]
    simp [hp, hss]

/-- C6 witness: a concrete paused iteration computes nothing. -/
theorem c6_paused_skips_compute_witness :
    computeCount (loopBody cfgW false sPaused).2 = 0 ∧
      (loopBody cfgW false sPaused).1.iterations = sPaused.iterations ∧
      (loopBody cfgW false sPaused).1.automata = sPaused.automata :=
  c6_paused_skips_compute cfgW false sPaused rfl rfl

/-- C9: in an iteration entered paused with the single-step flag set,
exactly one `compute_grid` call happens and the counter increments once;
the single-step flag is cleared unconditionally by every iteration, so the
following iteration (still paused) computes nothing. -/
theorem c9_single_step_once (cfg : Config) (l l' : Bool) (s : LoopState)
    (hp : s.paused = true) (hss : s.singleStep = true) :
    computeCount (loopBody cfg l s).2 = 1 ∧
      (loopBody cfg l s).1.iterations = s.iterations + 1 ∧
      (loopBody cfg l s).1.singleStep = false ∧
      (∀ t : LoopState, (loopBody cfg l t).1.singleStep = false) ∧
      computeCount (loopBody cfg l' (loopBody cfg l s).1).2 = 0 ∧
      (loopBody cfg l' (loopBody cfg l s).1).1.iterations =
        (loopBody cfg l s).1.iterations := by
  have hp' : (loopBody cfg l s).1.paused = true := by
    rw [loopBody_paused]
    exact hp
  have hss' : (loopBody cfg l s).1.singleStep = false := loopBody_singleStep cfg l s
  refine ⟨?_, ?_, loopBody_singleStep cfg l s, fun t => loopBody_singleStep cfg l t, ?_, ?_⟩
  · rw [loopBody_snd, computeCount_append, computeCount_renderEvents,
      computeCount_computeEvents]
    simp [hss]
  · rw [loopBody_iterations]
    simp [hss]
  · rw [loopBody_snd, computeCount_append, computeCount_renderEvents,
      computeCount_computeEvents]
    simp [hp', hss']
  · rw [loopBody_iterations ]
    simp [hp', hss']

/-- C9 witness: a concrete paused, step-requested iteration. -/
theorem c9_single_step_once_witness :
    computeCount (loopBody cfgW false sStep).2 = 1 ∧
      (loopBody cfgW false sStep).1.iterations = sStep.iterations + 1 :=
  ⟨(c9_single_step_once cfgW false false sStep rfl rfl).1,
   (c9_single_step_once cfgW false false sStep rfl rfl).2.1⟩

/-- C10: the iteration counter equals the number of `compute_grid` calls
performed so far — every run increments it by exactly the number of
compute events in its trace, every loop iteration increments it by exactly
its own compute-event count, and the signal handler never modifies it. -/
theorem c10_iterations_counts_computes (cfg : Config) (lo sig : Nat → Bool)
    (fuel k : Nat) (s : LoopState) (l : Bool) :
    (driver_run cfg lo sig fuel k s).1.iterations =
        s.iterations + computeCount (driver_run cfg lo sig fuel k s).2 ∧
      (loopBody cfg l s).1.iterations = s.iterations + computeCount (loopBody cfg l s).2 ∧
      (sigint_handler s).iterations = s.iterations :=
  ⟨driver_run_iterations cfg lo sig fuel k s, loopBody_iterations_count cfg l s, rfl⟩

/-- C3 counterexample: a fill probability of 2 is outside [0,1], yet
`config::load_cmd` accepts it without any error and the headless driver
loop still performs a `compute_grid` step under the invalid
configuration — construction rejects nothing. -/
theorem c3_counterexample :
    invalid_config cfgBad ∧
      load_cmd defaultConfig argsBad = LoadResult.ok cfgBad ∧
      computeCount (driver_run cfgBad noSig noSig 1 0 (initState cfgBad 0 0)).2 = 1 := by
  refine ⟨?_, rfl, ?_⟩
  · right
    right
    right
    decide
  · decide

/-- C3 amended: `config::load_cmd` performs no range validation at all —
every non-help argument set is accepted wholesale — and the generation
loop computes under a configuration with rows = 0, cols = 0 or a fill
probability outside [0,1] exactly as under a valid one. -/
theorem c3_no_validation (c : Config) (a : CmdArgs) (seed vbo : Nat)
    (ha : a.help = false) :
    load_cmd c a = LoadResult.ok (applyArgs c a) ∧
      ∀ cfg : Config, invalid_config cfg → cfg.render = false →
        cfg.startPaused = false → 0 < cfg.maxIterations →
        0 < computeCount
          (driver_run cfg noSig noSig cfg.maxIterations 0 (initState cfg seed vbo)).2 := by
  constructor
  · simp [load_cmd, ha]
  · intro cfg _ hr hsp hm
    have hpinit : (initState cfg seed vbo).paused = false := hsp
    have hi0 : (initState cfg seed vbo).iterations = 0 := rfl
    obtain ⟨h1, _, _⟩ := run_to_max cfg noSig hr hm cfg.maxIterations
      (initState cfg seed vbo) 0 hpinit rfl (by rw [hi0]; exact hm) (by rw [hi0]; omega)
    rw [h1, hi0]
    omega

/-- C3 amended witness: the invalid configuration `cfgBad` is loaded
without error and its run computes a generation. -/
theorem c3_no_validation_witness :
    load_cmd defaultConfig argsBad = LoadResult.ok (applyArgs defaultConfig argsBad) ∧
      0 < computeCount
        (driver_run cfgBad noSig noSig cfgBad.maxIterations 0 (initState cfgBad 0 0)).2 :=
  ⟨(c3_no_validation defaultConfig argsBad 0 0 rfl).1,
   (c3_no_validation defaultConfig argsBad 0 0 rfl).2 cfgBad
     (by right; right; right; decide) rfl rfl (by decide)⟩

/-- C4: the driver constructs exactly one backend, selected by the
configuration (CPU when CPU-only is set, render-interop GPU when rendering
is enabled, headless GPU otherwise), every dispatched call in the whole
run targets that backend, and the engine's backend is never switched. -/
theorem c4_single_backend (cfg : Config) (lo sig : Nat → Bool)
    (fuel seed vbo : Nat) (e : Event) (b : Backend)
    (he : e ∈ (driver_run cfg lo sig fuel 0 (initState cfg seed vbo)).2)
    (hb : e.backendOf = some b) :
    b = select_backend cfg ∧
      (driver_run cfg lo sig fuel 0 (initState cfg seed vbo)).1.automata.backend =
        select_backend cfg ∧
      (cfg.cpuOnly = true → select_backend cfg = Backend.cpu) ∧
      (cfg.cpuOnly = false → cfg.render = true → select_backend cfg = Backend.gpuRender) ∧
      (cfg.cpuOnly = false → cfg.render = false → select_backend cfg = Backend.gpuHeadless) := by
  have hinit : (initState cfg seed vbo).automata.backend = select_backend cfg := rfl
  refine ⟨?_, ?_, ?_, ?_, ?_⟩
  · rw [← hinit]
    exact driver_run_events_backend cfg lo sig fuel 0 _ e b he hb
  · rw [driver_run_backend]
    exact hinit
  · intro h
    simp [select_backend, h]
  · intro h1 h2
    simp [select_backend, h1, h2]
  · intro h1 h2
    simp [select_backend, h1, h2]

/-- C4 witness: the compute event of a concrete headless run dispatches to
the selected backend. -/
theorem c4_single_backend_witness :
    Backend.gpuHeadless = select_backend cfgW :=
  (c4_single_backend cfgW noSig noSig 1 0 0 (Event.compute Backend.gpuHeadless false)
    Backend.gpuHeadless (by decide) rfl).1

/-- C7: whether the GPU backend writes the externally-owned interop buffer
is fixed at construction — the render-mode constructor receives the
display's buffer handle, the headless constructor receives none, neither
`compute_grid` nor `update_grid_buffers` takes or changes a target, and
the target after any run equals the constructor-time target. -/
theorem c7_target_fixed_at_construction (cfg : Config) (lo sig : Nat → Bool)
    (fuel seed vbo : Nat) (hcpu : cfg.cpuOnly = false) :
    ((cfg.render = true → (init_automata cfg seed vbo).target = some vbo) ∧
      (cfg.render = false → (init_automata cfg seed vbo).target = none)) ∧
      (∀ (e : Engine) (l : Bool), (compute_grid e l).target = e.target) ∧
      (∀ e : Engine, (update_grid_buffers e).target = e.target) ∧
      (driver_run cfg lo sig fuel 0 (initState cfg seed vbo)).1.automata.target =
        (init_automata cfg seed vbo).target := by
  refine ⟨⟨?_, ?_⟩, fun e l => rfl, fun e => rfl, ?_⟩
  · intro hr
    unfold init_automata AutomataBase select_target
    simp [hcpu, hr]
  · intro hr
    unfold init_automata AutomataBase select_target
    simp [hcpu, hr]
  · rw [driver_run_target]
    rfl

/-- C7 witness: target invariance over a concrete run. -/
theorem c7_target_fixed_at_construction_witness :
    (driver_run cfgW noSig noSig 2 0 (initState cfgW 0 0)).1.automata.target =
      (init_automata cfgW 0 0).target :=
  (c7_target_fixed_at_construction cfgW noSig noSig 2 0 0 rfl).2.2.2

/-- C8: with a positive `config::maxIterations`, a never-paused headless
uninterrupted run executes exactly `maxIterations` generation steps and
the loop stops as soon as the counter reaches it (more fuel adds
nothing); with `maxIterations = 0` the loop never stops by itself and
computes once per iteration forever, stopping only when the looping flag
has been cleared, after which nothing further executes. -/
theorem c8_max_iterations_termination (cfg : Config) (lo : Nat → Bool)
    (seed vbo : Nat) (hr : cfg.render = false) (hsp : cfg.startPaused = false) :
    (∀ fuel, 0 < cfg.maxIterations → cfg.maxIterations ≤ fuel →
      computeCount (driver_run cfg lo noSig fuel 0 (initState cfg seed vbo)).2 =
          cfg.maxIterations ∧
        (driver_run cfg lo noSig fuel 0 (initState cfg seed vbo)).1.gLooping = false ∧
        (driver_run cfg lo noSig fuel 0 (initState cfg seed vbo)).1.iterations =
          cfg.maxIterations) ∧
      (cfg.maxIterations = 0 → ∀ fuel,
        computeCount (driver_run cfg lo noSig fuel 0 (initState cfg seed vbo)).2 = fuel ∧
          (driver_run cfg lo noSig fuel 0 (initState cfg seed vbo)).1.gLooping = true) ∧
      (∀ (t : LoopState) (fuel k : Nat) (sg : Nat → Bool), t.gLooping = false →
        driver_run cfg lo sg fuel k t = (t, [])) := by
  have hpinit : (initState cfg seed vbo).paused = false := hsp
  have hi0 : (initState cfg seed vbo).iterations = 0 := rfl
  refine ⟨?_, ?_, fun t fuel k sg h => driver_run_halted cfg lo sg hr fuel k t h⟩
  · intro fuel hm hfe
    obtain ⟨h1, h2, h3⟩ := run_to_max cfg lo hr hm fuel (initState cfg seed vbo) 0
      hpinit rfl (by rw [hi0]; exact hm) (by rw [hi0]; omega)
    refine ⟨?_, h2, h3⟩
    rw [h1, hi0]
    omega
  · intro hm fuel
    obtain ⟨h1, h2, _⟩ := run_forever cfg lo hr hm fuel (initState cfg seed vbo) 0
      hpinit rfl
    exact ⟨h1, h2⟩

/-- C8 witness: a concrete run with maxIterations = 1 computes exactly one
generation and stops. -/
theorem c8_max_iterations_termination_witness :
    computeCount (driver_run cfgW noSig noSig 1 0 (initState cfgW 0 0)).2 =
        cfgW.maxIterations ∧
      (driver_run cfgW noSig noSig 1 0 (initState cfgW 0 0)).1.gLooping = false :=
  ⟨((c8_max_iterations_termination cfgW noSig 0 0 rfl rfl).1 1 (by decide) (by decide)).1,
   ((c8_max_iterations_termination cfgW noSig 0 0 rfl rfl).1 1 (by decide) (by decide)).2.1⟩

end GoL
